import Mathlib

/-!
# Verification of the salesforce-bulk client library

A shallow embedding, in Lean 4, of `src/salesforce_bulk/salesforce_bulk.py`
(a synchronous client for a remote bulk-data API) together with theorems
settling the specification claims about it.

Modelling conventions:
* Python dicts whose values are strings (status snapshots, row records)
  become association lists `List (String × String)`; `List.lookup` embeds
  `d[k]`-style access (first binding wins; the maps in play never hold
  duplicate keys).
* HTTP responses become a structure `Response α` carrying the numeric
  `status_code`, the raw body `text` and the parsed `json` payload. The
  extra field `status` embeds the Python attribute `response.status`:
  `none` means the attribute is absent on the response object (as it is
  on the `requests` library's response type, which only exposes
  `status_code`), so that reading it raises an attribute error.
* The remote server is an oracle structure `Server`; status polls are
  indexed by a poll counter `k : Nat` threaded through every operation so
  that successive reloads may observe different states, while the result
  endpoints are keyed by URI.
* Raising an exception becomes returning `Except.error` of a `PyError`;
  every operation also returns the (possibly mutated) object state and
  the list of network/sleep events it performed, so that frame claims
  ("no network call happened") are literal statements about the trace.
-/

/-- A Python-style string map (status snapshot, row record, request body). -/
abbrev StatusMap := List (String × String)

/-- A row record posted to or returned by the server. -/
abbrev Row := StatusMap

/-- The exceptions the embedded code can raise. -/
inductive PyError where
  /-- Reading an attribute that the object does not have. -/
  | attributeError : PyError
  /-- `d[k]` on a dict lacking the key. -/
  | keyError (key : String) : PyError
  /-- `xrange` with step 0. -/
  | valueError : PyError
  /-- `RuntimeError(msg)`. -/
  | runtimeError (msg : String) : PyError
  /-- `BulkApiError(message, status_code)`. -/
  | bulkApiError (message : String) (status_code : Nat) : PyError
  /-- `BulkJobAborted(job_id)`. -/
  | bulkJobAborted (job_id : String) : PyError
  /-- `BulkBatchFailed(job_id, batch_id, state_message)`. -/
  | bulkBatchFailed (job_id : String) (batch_id : String)
      (state_message : String) : PyError
  deriving Repr, DecidableEq

/-- An HTTP response as the client code sees it.  `status_code`, `text` and
`json` embed the fields/methods of the same names; `status` embeds the
attribute `response.status`, which the `requests` response type does not
have (`none` = absent, so accessing it raises `AttributeError`). -/
structure Response (α : Type) where
  status_code : Nat
  text : String
  json : α
  status : Option Nat := none
  deriving Repr, DecidableEq

/-- One observable side effect of the client. -/
inductive Event where
  /-- `session.get(uri)`. -/
  | get (uri : String) : Event
  /-- `session.post(uri, json=rows)` creating a batch from a row chunk. -/
  | postRows (uri : String) (rows : List Row) : Event
  /-- `session.post(uri, data=soql)` creating a query batch. -/
  | postData (uri : String) (body : String) : Event
  /-- `session.post(uri, json=body)` for a job state change. -/
  | postState (uri : String) (body : StatusMap) : Event
  /-- `time.sleep(seconds)`. -/
  | sleep (seconds : Nat) : Event
  /-- The SOAP login exchange with the supplied credentials. -/
  | loginCall (username password : Option String) : Event
  deriving Repr, DecidableEq

/-- Modelled from the spec: the module `bulk_states` imported by the source
is not under `src/`.  Per the spec (section 4.3) the server reports a
completed state and a set of error states (aborted/failed); every other
state means "in progress". -/
def COMPLETED : String := "Completed"

/-- Modelled from the spec: the error-state set of the missing
`bulk_states` module (aborted/failed per section 4.3 of the spec). -/
def ERROR_STATES : List String := ["Failed", "Aborted"]

/-- `SalesforceBulk.check_status(response)`: on `status_code >= 400` it
builds the message from the raw body text and then evaluates
`response.status` while constructing the `BulkApiError` — an attribute
read that fails when the response object has no `status` attribute. -/
def check_status {α : Type} (response : Response α) : Except PyError Unit :=
  if 400 ≤ response.status_code then
    let msg := "Bulk API HTTP Error result: " ++ response.text
    match response.status with
    | some s => .error (.bulkApiError msg s)
    | none => .error .attributeError
  else .ok ()

/-- The `requests` library's response type exposes `status_code` but no
`status` attribute: a response produced by it always has `status = none`. -/
def requestsResponse {α : Type} (code : Nat) (body : String) (payload : α) :
    Response α :=
  { status_code := code, text := body, json := payload }

/-- The remote server, as an oracle.  Status GETs are indexed by the poll
counter `k` (successive polls of one URI may see different states); the
result endpoints and state-change POSTs are keyed by URI; batch-creation
POSTs are indexed by their sequence number within one `post` call. -/
structure Server where
  /-- Response to the `k`-th status GET of the given batch URI. -/
  statusResp : Nat → String → Response StatusMap
  /-- Response to a GET of `.../result` on an ordinary batch. -/
  resultResp : String → Response (List Row)
  /-- Response to a GET of `.../result` on a query batch (list of
  result-chunk ids). -/
  resultIdsResp : String → Response (List String)
  /-- Response to a GET of `.../result/{id}` on a query batch. -/
  chunkResp : String → Response (List Row)
  /-- Response to the `p`-th batch-creation POST of one `Job.post` call. -/
  createBatchResp : Nat → Response StatusMap
  /-- Response to a batch-creation POST carrying a query body. -/
  createQueryResp : Response StatusMap
  /-- Response to a job state-change POST (`{state: ...}`) at the job URI. -/
  stateChangeResp : String → StatusMap → Response StatusMap

/-- The state of a `Batch` object.  `_status` is the cached status
snapshot (`None` before the first fetch); `is_query` records the dynamic
type (`BatchQuery` overrides `results`). -/
structure BatchState where
  endpoint : String
  batch_id : String
  is_query : Bool := false
  _status : Option StatusMap := none
  deriving Repr, DecidableEq

/-- `Batch.__init__(session, job_endpoint, batch_id)`. -/
def Batch.init (job_endpoint : String) (batch_id : String) : BatchState :=
  { endpoint := job_endpoint ++ "/batch/" ++ batch_id, batch_id := batch_id }

/-- `BatchQuery.__init__` just delegates to `Batch.__init__`; the flag
records the dynamic type for the `results` dispatch. -/
def BatchQuery.init (job_endpoint : String) (batch_id : String) : BatchState :=
  { Batch.init job_endpoint batch_id with is_query := true }

/-- `Batch.status(reload=False)`: fetch (GET + `check_status` + cache) iff
`reload or self._status is None`, else return the cache untouched.
Returns (result, new object state, new poll counter, events). -/
def Batch.status (srv : Server) (reload : Bool) (b : BatchState) (k : Nat) :
    Except PyError StatusMap × BatchState × Nat × List Event :=
  match b._status, reload with
  | some st, false => (.ok st, b, k, [])
  | _, _ =>
    let resp := srv.statusResp k b.endpoint
    match check_status resp with
    | .error e => (.error e, b, k + 1, [.get b.endpoint])
    | .ok _ =>
      (.ok resp.json, { b with _status := some resp.json }, k + 1,
       [.get b.endpoint])

/-- The pure core of `Batch.is_done`, applied to the snapshot returned by
`status`: read `batch_status['state']` if present (else `None`); raise
`BulkBatchFailed(batch_status['jobId'], batch_status['id'],
batch_status['stateMessage'])` when the state is an error state (each
`[...]` access raising `KeyError` if the key is missing, left to right);
otherwise return `state == COMPLETED`. -/
def isDoneOfStatus (batch_status : StatusMap) : Except PyError Bool :=
  match batch_status.lookup "state" with
  | none => .ok false
  | some batch_state =>
    if ERROR_STATES.contains batch_state then
      match batch_status.lookup "jobId" with
      | none => .error (.keyError "jobId")
      | some job_id =>
        match batch_status.lookup "id" with
        | none => .error (.keyError "id")
        | some batch_id =>
          match batch_status.lookup "stateMessage" with
          | none => .error (.keyError "stateMessage")
          | some msg => .error (.bulkBatchFailed job_id batch_id msg)
    else .ok (batch_state == COMPLETED)

/-- `Batch.is_done(reload=False)`: `status(reload)` then the state check. -/
def Batch.is_done (srv : Server) (reload : Bool) (b : BatchState) (k : Nat) :
    Except PyError Bool × BatchState × Nat × List Event :=
  match Batch.status srv reload b k with
  | (.error e, b', k', tr) => (.error e, b', k', tr)
  | (.ok batch_status, b', k', tr) => (isDoneOfStatus batch_status, b', k', tr)

/-- `Batch.wait(timeout, sleep_interval)` as its loop, carrying the
accumulated `waited`: `while not self.is_done(True) and waited < timeout:
time.sleep(sleep_interval); waited += sleep_interval`.  The condition
evaluates `is_done(True)` first, so a final poll happens even once
`waited` has reached `timeout`.  `hsi` records that the sleep interval is
positive (with interval 0 the Python loop would never terminate). -/
def Batch.wait_go (srv : Server) (timeout si : Nat) (hsi : 0 < si)
    (b : BatchState) (waited k : Nat) :
    Except PyError Unit × BatchState × Nat × List Event :=
  match Batch.is_done srv true b k with
  | (.error e, b', k', tr) => (.error e, b', k', tr)
  | (.ok d, b', k', tr) =>
    if d then (.ok (), b', k', tr)
    else if _hw : waited < timeout then
      match Batch.wait_go srv timeout si hsi b' (waited + si) k' with
      | (r, b'', k'', tr') => (r, b'', k'', tr ++ .sleep si :: tr')
    else (.ok (), b', k', tr)
termination_by timeout - waited
decreasing_by omega

/-- The result-fetch tail of `Batch.results` (base class): GET
`self.endpoint + '/result'`, validate, and yield each element of the
returned collection in server order. -/
def Batch.fetch_result (srv : Server) (b : BatchState) (k : Nat) :
    Except PyError (List Row) × BatchState × Nat × List Event :=
  let uri := b.endpoint ++ "/result"
  let resp := srv.resultResp uri
  match check_status resp with
  | .error e => (.error e, b, k, [.get uri])
  | .ok _ => (.ok resp.json, b, k, [.get uri])

/-- The per-id loop of `BatchQuery.results`: for each result id in the
order the server returned them, GET `.../result/{id}`, validate, and
yield that chunk's rows in order. -/
def BatchQuery.fetch_chunks (srv : Server) (endpoint : String) :
    List String → Except PyError (List Row) × List Event
  | [] => (.ok [], [])
  | result_id :: rest =>
    let uri := endpoint ++ "/result/" ++ result_id
    let resp := srv.chunkResp uri
    match check_status resp with
    | .error e => (.error e, [.get uri])
    | .ok _ =>
      match BatchQuery.fetch_chunks srv endpoint rest with
      | (.error e, tr) => (.error e, .get uri :: tr)
      | (.ok rows, tr) => (.ok (resp.json ++ rows), .get uri :: tr)

/-- `Batch.results` (base class): `if not self.is_done(): self.wait()`
(with the source defaults timeout=600, sleep_interval=10), then fetch the
result collection. -/
def Batch.results_base (srv : Server) (b : BatchState) (k : Nat) :
    Except PyError (List Row) × BatchState × Nat × List Event :=
  match Batch.is_done srv false b k with
  | (.error e, b', k', tr) => (.error e, b', k', tr)
  | (.ok true, b', k', tr) =>
    match Batch.fetch_result srv b' k' with
    | (r, b'', k'', tr') => (r, b'', k'', tr ++ tr')
  | (.ok false, b', k', tr) =>
    match Batch.wait_go srv 600 10 (by omega) b' 0 k' with
    | (.error e, b'', k'', tr') => (.error e, b'', k'', tr ++ tr')
    | (.ok _, b'', k'', tr') =>
      match Batch.fetch_result srv b'' k'' with
      | (r, b''', k''', tr'') => (r, b''', k''', tr ++ tr' ++ tr'')

/-- `BatchQuery.results`: same prologue, then GET the result-id list,
validate, and flatten the chunks in id order. -/
def BatchQuery.results (srv : Server) (b : BatchState) (k : Nat) :
    Except PyError (List Row) × BatchState × Nat × List Event :=
  match Batch.is_done srv false b k with
  | (.error e, b', k', tr) => (.error e, b', k', tr)
  | (.ok done, b', k', tr) =>
    match (if done then (.ok (), b', k', tr)
           else
             match Batch.wait_go srv 600 10 (by omega) b' 0 k' with
             | (r, b'', k'', tr') => (r, b'', k'', tr ++ tr') :
        Except PyError Unit × BatchState × Nat × List Event) with
    | (.error e, b'', k'', tr') => (.error e, b'', k'', tr')
    | (.ok _, b'', k'', tr') =>
      let uri := b''.endpoint ++ "/result"
      let resp := srv.resultIdsResp uri
      match check_status resp with
      | .error e => (.error e, b'', k'', tr' ++ [.get uri])
      | .ok _ =>
        match BatchQuery.fetch_chunks srv b''.endpoint resp.json with
        | (r, tr'') => (r, b'', k'', tr' ++ .get uri :: tr'')

/-- Dynamic dispatch of `batch.results()`: a `BatchQuery` runs the
override, a plain `Batch` the base implementation. -/
def Batch.results (srv : Server) (b : BatchState) (k : Nat) :
    Except PyError (List Row) × BatchState × Nat × List Event :=
  if b.is_query then BatchQuery.results srv b k else Batch.results_base srv b k

/-- The state of a `Job` object: its endpoint, id and the cumulative,
insertion-ordered batch list. -/
structure JobState where
  endpoint : String
  job_id : String
  batches : List BatchState := []
  deriving Repr, DecidableEq

/-- `Job.__init__(session, endpoint, job_id)`. -/
def Job.init (endpoint : String) (job_id : String) : JobState :=
  { endpoint := endpoint ++ "/job/" ++ job_id, job_id := job_id }

/-- The consecutive slices `data[i:i+b]` visited by the source loop
`for i in xrange(0, len(data), batch_size)` — each of at most `b`
elements, the last possibly shorter. -/
def chunksOf {α : Type} (b : Nat) (hb : 0 < b) (data : List α) :
    List (List α) :=
  match data with
  | [] => []
  | x :: xs => (x :: xs).take b :: chunksOf b hb ((x :: xs).drop b)
termination_by data.length
decreasing_by
  simp only [List.length_drop, List.length_cons]
  omega

/-- The body of the `Job.post` loop, one iteration per chunk, carrying the
chunk counter `p`: POST the chunk, validate, read `resp.json()['id']`,
build a `Batch`, append it to the job's list and to the returned list.
Returns (returned list, batches appended to the job, events): on an
exception the local returned list is lost but the already-appended
batches persist on the job, as with Python's mutation. -/
def Job.post_chunks (srv : Server) (uri : String) (job_endpoint : String) :
    List (List Row) → Nat →
    Except PyError (List BatchState) × List BatchState × List Event
  | [], _ => (.ok [], [], [])
  | chunk :: rest, p =>
    let resp := srv.createBatchResp p
    match check_status resp with
    | .error e => (.error e, [], [.postRows uri chunk])
    | .ok _ =>
      match resp.json.lookup "id" with
      | none => (.error (.keyError "id"), [], [.postRows uri chunk])
      | some batch_id =>
        let batch := Batch.init job_endpoint batch_id
        match Job.post_chunks srv uri job_endpoint rest (p + 1) with
        | (.error e, app, tr) =>
          (.error e, batch :: app, .postRows uri chunk :: tr)
        | (.ok created, app, tr) =>
          (.ok (batch :: created), batch :: app, .postRows uri chunk :: tr)

/-- `Job.post(data, batch_size=2500)`: one batch-creation POST per
consecutive chunk of at most `batch_size` rows (`xrange` with step 0
raises `ValueError` before the loop). -/
def Job.post (srv : Server) (j : JobState) (data : List Row)
    (batch_size : Nat) :
    Except PyError (List BatchState) × JobState × List Event :=
  if h : batch_size = 0 then (.error .valueError, j, [])
  else
    let uri := j.endpoint ++ "/batch"
    match Job.post_chunks srv uri j.endpoint
        (chunksOf batch_size (Nat.pos_of_ne_zero h) data) 0 with
    | (res, app, tr) => (res, { j with batches := j.batches ++ app }, tr)

/-- `Job.query(soql)`: POST the query text as the batch body, validate,
append the new `BatchQuery` to the job's batch list and return it. -/
def Job.query (srv : Server) (j : JobState) (soql : String) :
    Except PyError BatchState × JobState × List Event :=
  let uri := j.endpoint ++ "/batch"
  let resp := srv.createQueryResp
  match check_status resp with
  | .error e => (.error e, j, [.postData uri soql])
  | .ok _ =>
    match resp.json.lookup "id" with
    | none => (.error (.keyError "id"), j, [.postData uri soql])
    | some batch_id =>
      let batch := BatchQuery.init j.endpoint batch_id
      (.ok batch, { j with batches := j.batches ++ [batch] },
       [.postData uri soql])

/-- The loop of `Job.is_done`: `for batch in self.batches: if not
batch.is_done(): return False` — the first not-done batch stops the scan,
leaving every later batch unexamined. -/
def Job.is_done_go (srv : Server) :
    List BatchState → Nat →
    Except PyError Bool × List BatchState × Nat × List Event
  | [], k => (.ok true, [], k, [])
  | b :: rest, k =>
    match Batch.is_done srv false b k with
    | (.error e, b', k', tr) => (.error e, b' :: rest, k', tr)
    | (.ok false, b', k', tr) => (.ok false, b' :: rest, k', tr)
    | (.ok true, b', k', tr) =>
      match Job.is_done_go srv rest k' with
      | (r, rest', k'', tr') => (r, b' :: rest', k'', tr ++ tr')

/-- `Job.is_done()`. -/
def Job.is_done (srv : Server) (j : JobState) (k : Nat) :
    Except PyError Bool × JobState × Nat × List Event :=
  match Job.is_done_go srv j.batches k with
  | (r, bs, k', tr) => (r, { j with batches := bs }, k', tr)

/-- The loop of `Job.wait`: `for batch in self.batches:
batch.wait(timeout, sleep_interval)` — sequential, each batch with its
own full budget. -/
def Job.wait_go (srv : Server) (timeout si : Nat) (hsi : 0 < si) :
    List BatchState → Nat →
    Except PyError Unit × List BatchState × Nat × List Event
  | [], k => (.ok (), [], k, [])
  | b :: rest, k =>
    match Batch.wait_go srv timeout si hsi b 0 k with
    | (.error e, b', k', tr) => (.error e, b' :: rest, k', tr)
    | (.ok _, b', k', tr) =>
      match Job.wait_go srv timeout si hsi rest k' with
      | (r, rest', k'', tr') => (r, b' :: rest', k'', tr ++ tr')

/-- The aggregation loop of `Job.results`: for each batch in insertion
order, yield every row of that batch's own `results()`. -/
def Job.results_collect (srv : Server) :
    List BatchState → Nat →
    Except PyError (List Row) × List BatchState × Nat × List Event
  | [], k => (.ok [], [], k, [])
  | b :: rest, k =>
    match Batch.results srv b k with
    | (.error e, b', k', tr) => (.error e, b' :: rest, k', tr)
    | (.ok rows, b', k', tr) =>
      match Job.results_collect srv rest k' with
      | (.error e, rest', k'', tr') => (.error e, b' :: rest', k'', tr ++ tr')
      | (.ok rows', rest', k'', tr') =>
        (.ok (rows ++ rows'), b' :: rest', k'', tr ++ tr')

/-- `Job.results()`: `if not self.is_done(): self.wait()` (defaults), then
the flat, insertion-ordered concatenation of the batches' results. -/
def Job.results (srv : Server) (j : JobState) (k : Nat) :
    Except PyError (List Row) × JobState × Nat × List Event :=
  match Job.is_done srv j k with
  | (.error e, j', k', tr) => (.error e, j', k', tr)
  | (.ok true, j', k', tr) =>
    match Job.results_collect srv j'.batches k' with
    | (r, bs, k'', tr') =>
      (r, { j' with batches := bs }, k'', tr ++ tr')
  | (.ok false, j', k', tr) =>
    match Job.wait_go srv 600 10 (by omega) j'.batches k' with
    | (.error e, bs, k'', tr') =>
      (.error e, { j' with batches := bs }, k'', tr ++ tr')
    | (.ok _, bs, k'', tr') =>
      match Job.results_collect srv bs k'' with
      | (r, bs', k''', tr'') =>
        (r, { j' with batches := bs' }, k''', tr ++ tr' ++ tr'')

/-- `Job.close()`: POST `{state: 'Closed'}` at the job endpoint and
validate the response. -/
def Job.close (srv : Server) (j : JobState) :
    Except PyError Unit × List Event :=
  let resp := srv.stateChangeResp j.endpoint [("state", "Closed")]
  match check_status resp with
  | .error e => (.error e, [.postState j.endpoint [("state", "Closed")]])
  | .ok _ => (.ok (), [.postState j.endpoint [("state", "Closed")]])

/-- `Job.abort()`: POST `{state: 'Aborted'}` at the job endpoint. -/
def Job.abort (srv : Server) (j : JobState) :
    Except PyError Unit × List Event :=
  let resp := srv.stateChangeResp j.endpoint [("state", "Aborted")]
  match check_status resp with
  | .error e => (.error e, [.postState j.endpoint [("state", "Aborted")]])
  | .ok _ => (.ok (), [.postState j.endpoint [("state", "Aborted")]])

/-- `Job.__enter__`: returns `self`. -/
def Job.enter_ (j : JobState) : JobState := j

/-- `Job.__exit__(exc, value, traceback)`: calls `self.close()` and
returns `None`, so it never suppresses the in-flight exception. -/
def Job.exit_ (srv : Server) (j : JobState) :
    Except PyError Unit × List Event :=
  Job.close srv j

/-- The `with job: body` statement: run `__enter__`, then the body, then
`__exit__` whether the body returned or raised; since `__exit__` returns
`None`, a body exception propagates after the close (an exception raised
by `close` itself replaces the outcome, as in Python). -/
def withJob {α : Type} (srv : Server) (j : JobState)
    (body : JobState → Except PyError α × List Event) :
    Except PyError α × List Event :=
  let j0 := Job.enter_ j
  match body j0 with
  | (.ok a, tr) =>
    match Job.exit_ srv j0 with
    | (.ok _, trc) => (.ok a, tr ++ trc)
    | (.error e, trc) => (.error e, tr ++ trc)
  | (.error e, tr) =>
    match Job.exit_ srv j0 with
    | (.ok _, trc) => (.error e, tr ++ trc)
    | (.error e2, trc) => (.error e2, tr ++ trc)

/-- Python truthiness of an optional string argument: `None` and the
empty string are falsy. -/
def truthy : Option String → Bool
  | none => false
  | some s => !(s == "")

/-- The client state built by `SalesforceBulk.__init__`: the derived API
endpoint and the per-request session headers. -/
structure ClientState where
  endpoint : String
  sessionHeader : String
  contentTypeHeader : String
  deriving Repr, DecidableEq

/-- `SalesforceBulk.__init__(sessionId, host, username, password, ...)`:
after the precondition check (`if not sessionId and not username: raise`),
it unconditionally performs the login exchange — `host, sessionId =
SalesforceBulk.login(username, password, host, API_version)` — rebinding
`sessionId` to the login result and discarding any supplied value, then
derives the endpoint and sets the session headers.  The login exchange
itself is an external collaborator (spec section 1) and is passed in as
the oracle `login`. -/
def SalesforceBulk.init_ (sessionId : Option String) (host : String)
    (username password : Option String) (API_version : String)
    (login : Option String → Option String → String → String →
      String × String) :
    Except PyError ClientState × List Event :=
  if !truthy sessionId && !truthy username then
    (.error (.runtimeError
      "Must supply either sessionId/instance_url or username/password"), [])
  else
    let hs := login username password host API_version
    (.ok { endpoint :=
             "https://" ++ hs.1 ++ "/services/async/" ++ API_version,
           sessionHeader := hs.2,
           contentTypeHeader := "application/json" },
     [.loginCall username password])

/-- A server that keeps reporting a non-terminal, non-error state for the
given batch URI (and a successful response). -/
def neverDone (srv : Server) (u : String) : Prop :=
  ∀ k, (srv.statusResp k u).status_code < 400 ∧
    isDoneOfStatus (srv.statusResp k u).json = .ok false

/-- A batch whose cached snapshot reports the completed state. -/
def cachedDone (b : BatchState) : Prop :=
  ∃ st, b._status = some st ∧ isDoneOfStatus st = .ok true

/-- The rows a batch's `results()` yields once it is done, read off the
server oracle: for a plain batch the result collection in server order,
for a query batch the two-level flatten (chunk ids in server order, each
chunk's rows in server order). -/
def batchRows (srv : Server) (b : BatchState) : List Row :=
  if b.is_query then
    (((srv.resultIdsResp (b.endpoint ++ "/result")).json).map
      (fun rid => (srv.chunkResp (b.endpoint ++ "/result/" ++ rid)).json)).flatten
  else (srv.resultResp (b.endpoint ++ "/result")).json

/-- The result endpoints a batch's `results()` touches all answer with a
successful status. -/
def resultsOk (srv : Server) (b : BatchState) : Prop :=
  if b.is_query then
    (srv.resultIdsResp (b.endpoint ++ "/result")).status_code < 400 ∧
      ∀ rid ∈ (srv.resultIdsResp (b.endpoint ++ "/result")).json,
        (srv.chunkResp (b.endpoint ++ "/result/" ++ rid)).status_code < 400
  else (srv.resultResp (b.endpoint ++ "/result")).status_code < 400

/-- A concrete server used to instantiate the theorems: every endpoint
answers 200, status polls always report an in-progress state, batch
creation always returns the id "B0". -/
def sampleServer : Server where
  statusResp := fun _ _ => requestsResponse 200 "" [("state", "InProgress")]
  resultResp := fun _ => requestsResponse 200 "" [[("Id", "1")], [("Id", "2")]]
  resultIdsResp := fun _ => requestsResponse 200 "" ["r1", "r2"]
  chunkResp := fun _ => requestsResponse 200 "" [[("Id", "3")]]
  createBatchResp := fun _ => requestsResponse 200 "" [("id", "B0")]
  createQueryResp := requestsResponse 200 "" [("id", "BQ")]
  stateChangeResp := fun _ _ => requestsResponse 200 "" []

/-- A concrete job for instantiating the theorems. -/
def sampleJob : JobState := Job.init "https://sf/services/async/36.0" "J1"

/-- A batch with no cached snapshot yet. -/
def freshBatch : BatchState := { endpoint := "J/batch/F", batch_id := "F" }

/-- A batch whose cached snapshot reports the completed state. -/
def doneBatch : BatchState :=
  { endpoint := "J/batch/D1", batch_id := "D1",
    _status := some [("state", "Completed")] }

/-- A query batch whose cached snapshot reports the completed state. -/
def doneQueryBatch : BatchState :=
  { endpoint := "J/batch/D2", batch_id := "D2", is_query := true,
    _status := some [("state", "Completed")] }

/-- A batch whose cached snapshot reports an in-progress state. -/
def progressBatch : BatchState :=
  { endpoint := "J/batch/P", batch_id := "P",
    _status := some [("state", "InProgress")] }

/-- A batch whose cached snapshot reports the failed state, with the
spec's scenario fields. -/
def failedBatch : BatchState :=
  { endpoint := "J/batch/B1", batch_id := "B1",
    _status := some [("state", "Failed"), ("jobId", "J1"), ("id", "B1"),
      ("stateMessage", "bad row")] }

/-- A batch whose cached snapshot lacks the state key. -/
def noStateBatch : BatchState :=
  { endpoint := "J/batch/N", batch_id := "N",
    _status := some [("foo", "bar")] }

/-- A job owning two completed batches (one plain, one query). -/
def doneJob : JobState :=
  { endpoint := "J", job_id := "JD", batches := [doneBatch, doneQueryBatch] }

/-- A job owning a done batch, then an in-progress batch, then a batch
that was never polled. -/
def mixedJob : JobState :=
  { endpoint := "J", job_id := "JM",
    batches := [doneBatch, progressBatch, freshBatch] }

theorem check_status_ok {α : Type} (r : Response α)
    (h : r.status_code < 400) : check_status r = .ok () := by
  unfold check_status
  rw [if_neg (by omega)]

theorem check_status_requests_error {α : Type} (code : Nat) (body : String)
    (payload : α) (h : 400 ≤ code) :
    check_status (requestsResponse code body payload) =
      .error .attributeError := by
  unfold check_status requestsResponse
  rw [if_pos (by simpa using h)]

theorem Batch.status_cached (srv : Server) (b : BatchState) (k : Nat)
    (st : StatusMap) (h : b._status = some st) :
    Batch.status srv false b k = (.ok st, b, k, []) := by
  unfold Batch.status
  rw [h]

theorem Batch.status_fetch_ok (srv : Server) (reload : Bool) (b : BatchState)
    (k : Nat) (hre : reload = true ∨ b._status = none)
    (hok : (srv.statusResp k b.endpoint).status_code < 400) :
    Batch.status srv reload b k =
      (.ok (srv.statusResp k b.endpoint).json,
       { b with _status := some (srv.statusResp k b.endpoint).json }, k + 1,
       [.get b.endpoint]) := by
  have hcs := check_status_ok (srv.statusResp k b.endpoint) hok
  unfold Batch.status
  rcases hre with h | h
  · subst h
    cases b._status <;> simp [hcs]
  · rw [h]
    cases reload <;> simp [hcs]

theorem Batch.is_done_cached (srv : Server) (b : BatchState) (k : Nat)
    (st : StatusMap) (h : b._status = some st) :
    Batch.is_done srv false b k = (isDoneOfStatus st, b, k, []) := by
  unfold Batch.is_done
  rw [Batch.status_cached srv b k st h]

theorem Batch.is_done_fetch_ok (srv : Server) (reload : Bool)
    (b : BatchState) (k : Nat) (hre : reload = true ∨ b._status = none)
    (hok : (srv.statusResp k b.endpoint).status_code < 400) :
    Batch.is_done srv reload b k =
      (isDoneOfStatus (srv.statusResp k b.endpoint).json,
       { b with _status := some (srv.statusResp k b.endpoint).json }, k + 1,
       [.get b.endpoint]) := by
  unfold Batch.is_done
  rw [Batch.status_fetch_ok srv reload b k hre hok]

theorem isDoneOfStatus_no_state (st : StatusMap)
    (h : st.lookup "state" = none) : isDoneOfStatus st = .ok false := by
  unfold isDoneOfStatus
  rw [h]

theorem isDoneOfStatus_error (st : StatusMap) (s : String)
    (hs : st.lookup "state" = some s) (herr : s ∈ ERROR_STATES)
    (j bid m : String) (hj : st.lookup "jobId" = some j)
    (hb : st.lookup "id" = some bid)
    (hm : st.lookup "stateMessage" = some m) :
    isDoneOfStatus st = .error (.bulkBatchFailed j bid m) := by
  have hc : ERROR_STATES.contains s = true := by simpa using herr
  simp only [isDoneOfStatus, hs, hc, if_true, hj, hb, hm]

theorem isDoneOfStatus_not_error (st : StatusMap) (s : String)
    (hs : st.lookup "state" = some s) (herr : s ∉ ERROR_STATES) :
    isDoneOfStatus st = .ok (s == COMPLETED) := by
  simp only [isDoneOfStatus, hs]
  rw [if_neg (by simpa using herr)]

theorem Batch.wait_go_notdone_step (srv : Server) (timeout si : Nat)
    (hsi : 0 < si) (b : BatchState) (waited k : Nat)
    (hok : (srv.statusResp k b.endpoint).status_code < 400)
    (hnd : isDoneOfStatus (srv.statusResp k b.endpoint).json = .ok false) :
    Batch.wait_go srv timeout si hsi b waited k =
      if waited < timeout then
        match Batch.wait_go srv timeout si hsi
            { b with _status := some (srv.statusResp k b.endpoint).json }
            (waited + si) (k + 1) with
        | (r, b2, k2, tr2) =>
          (r, b2, k2, .get b.endpoint :: .sleep si :: tr2)
      else
        (.ok (), { b with _status := some (srv.statusResp k b.endpoint).json },
         k + 1, [.get b.endpoint]) := by
  rw [Batch.wait_go]
  rw [Batch.is_done_fetch_ok srv true b k (Or.inl rfl) hok, hnd]
  rcases hrec : Batch.wait_go srv timeout si hsi
      { b with _status := some (srv.statusResp k b.endpoint).json }
      (waited + si) (k + 1) with ⟨r, b2, k2, tr2⟩
  by_cases hw : waited < timeout
  · simp [hw, hrec]
  · simp [hw]

theorem Batch.wait_go_never_done (srv : Server) (u : String)
    (timeout si : Nat) (hsi : 0 < si) (h : neverDone srv u)
    (waited k : Nat) (b : BatchState) (hb : b.endpoint = u) :
    (Batch.wait_go srv timeout si hsi b waited k).1 = .ok () := by
  have hok : (srv.statusResp k b.endpoint).status_code < 400 := by
    rw [hb]; exact (h k).1
  have hnd : isDoneOfStatus (srv.statusResp k b.endpoint).json = .ok false := by
    rw [hb]; exact (h k).2
  rw [Batch.wait_go_notdone_step srv timeout si hsi b waited k hok hnd]
  by_cases hw : waited < timeout
  · rw [if_pos hw]
    rcases hrec : Batch.wait_go srv timeout si hsi
        { b with _status := some (srv.statusResp k b.endpoint).json }
        (waited + si) (k + 1) with ⟨r, b2, k2, tr2⟩
    have := Batch.wait_go_never_done srv u timeout si hsi h (waited + si)
      (k + 1) { b with _status := some (srv.statusResp k b.endpoint).json }
      (by simpa using hb)
    rw [hrec] at this
    simpa using this
  · rw [if_neg hw]
termination_by timeout - waited
decreasing_by omega

theorem Batch.wait_30_10_scenario (srv : Server) (u : String)
    (h : neverDone srv u) (b : BatchState) (hb : b.endpoint = u) (k : Nat) :
    Batch.wait_go srv 30 10 (by omega) b 0 k =
      (.ok (), { b with _status := some (srv.statusResp (k + 3) u).json },
       k + 4,
       [.get u, .sleep 10, .get u, .sleep 10, .get u, .sleep 10, .get u]) := by
  rw [Batch.wait_go_notdone_step srv 30 10 (by omega) b 0 k
    (by rw [hb]; exact (h k).1) (by rw [hb]; exact (h k).2)]
  rw [if_pos (by omega)]
  set b1 : BatchState :=
    { b with _status := some (srv.statusResp k b.endpoint).json } with hb1
  have e1 : b1.endpoint = u := by rw [hb1]; exact hb
  rw [Batch.wait_go_notdone_step srv 30 10 (by omega) b1 10 (k + 1)
    (by rw [e1]; exact (h (k + 1)).1) (by rw [e1]; exact (h (k + 1)).2)]
  rw [if_pos (by omega)]
  set b2 : BatchState :=
    { b1 with _status := some (srv.statusResp (k + 1) b1.endpoint).json }
    with hb2
  have e2 : b2.endpoint = u := by rw [hb2]; exact e1
  rw [Batch.wait_go_notdone_step srv 30 10 (by omega) b2 20 (k + 2)
    (by rw [e2]; exact (h (k + 2)).1) (by rw [e2]; exact (h (k + 2)).2)]
  rw [if_pos (by omega)]
  set b3 : BatchState :=
    { b2 with _status := some (srv.statusResp (k + 2) b2.endpoint).json }
    with hb3
  have e3 : b3.endpoint = u := by rw [hb3]; exact e2
  rw [Batch.wait_go_notdone_step srv 30 10 (by omega) b3 30 (k + 3)
    (by rw [e3]; exact (h (k + 3)).1) (by rw [e3]; exact (h (k + 3)).2)]
  rw [if_neg (by omega)]
  simp [hb1, hb2, hb3, hb, e1, e2, e3]

theorem Job.is_done_go_all_done (srv : Server) (bs : List BatchState)
    (k : Nat) (h : ∀ b ∈ bs, cachedDone b) :
    Job.is_done_go srv bs k = (.ok true, bs, k, []) := by
  induction bs generalizing k with
  | nil => rfl
  | cons b rest ih =>
    rcases h b (by simp) with ⟨st, hst, hdone⟩
    simp only [Job.is_done_go]
    rw [Batch.is_done_cached srv b k st hst, hdone]
    have hrest := ih k (fun b' hb' => h b' (by simp [hb']))
    simp [hrest]

theorem Job.is_done_go_true_iff (srv : Server) (bs : List BatchState)
    (k : Nat) (hc : ∀ b ∈ bs, b._status.isSome) :
    (Job.is_done_go srv bs k).1 = .ok true ↔ ∀ b ∈ bs, cachedDone b := by
  induction bs generalizing k with
  | nil => simp [Job.is_done_go]
  | cons b rest ih =>
    obtain ⟨st, hst⟩ := Option.isSome_iff_exists.mp (hc b (by simp))
    simp only [Job.is_done_go]
    rw [Batch.is_done_cached srv b k st hst]
    rcases hd : isDoneOfStatus st with e | d
    · constructor
      · intro hcontra; simp at hcontra
      · intro hall
        rcases hall b (by simp) with ⟨st2, hst2, htrue⟩
        rw [hst] at hst2
        cases hst2
        rw [hd] at htrue
        cases htrue
    · cases d
      · constructor
        · intro hcontra; simp at hcontra
        · intro hall
          rcases hall b (by simp) with ⟨st2, hst2, htrue⟩
          rw [hst] at hst2
          cases hst2
          rw [hd] at htrue
          cases htrue
      · have hrest := ih k (fun b' hb' => hc b' (by simp [hb']))
        constructor
        · intro htr
          intro b' hb'
          rcases List.mem_cons.mp hb' with h1 | h1
          · exact h1 ▸ ⟨st, hst, hd⟩
          · exact (hrest.mp (by simpa using htr)) b' h1
        · intro hall
          simpa using hrest.mpr (fun b' hb' => hall b' (by simp [hb']))

theorem Job.is_done_go_short_circuit (srv : Server) (pre : List BatchState)
    (x : BatchState) (post : List BatchState) (k : Nat)
    (pre' : List BatchState) (k1 : Nat) (tr1 : List Event)
    (x' : BatchState) (k2 : Nat) (tr2 : List Event)
    (hpre : Job.is_done_go srv pre k = (.ok true, pre', k1, tr1))
    (hx : Batch.is_done srv false x k1 = (.ok false, x', k2, tr2)) :
    Job.is_done_go srv (pre ++ x :: post) k =
      (.ok false, pre' ++ x' :: post, k2, tr1 ++ tr2) := by
  induction pre generalizing k pre' k1 tr1 with
  | nil =>
    simp only [Job.is_done_go, Prod.mk.injEq] at hpre
    obtain ⟨-, h2, h3, h4⟩ := hpre
    subst h2; subst h3; subst h4
    simp only [List.nil_append, Job.is_done_go]
    rw [hx]
  | cons b pre ih =>
    simp only [Job.is_done_go] at hpre
    rcases h1 : Batch.is_done srv false b k with ⟨r, b', kk, tr⟩
    rw [h1] at hpre
    rcases r with e | d
    · simp at hpre
    · cases d
      · simp at hpre
      · rcases h2 : Job.is_done_go srv pre kk with ⟨r2, rest2, kx, trx⟩
        simp only [h2, Prod.mk.injEq] at hpre
        obtain ⟨hr2, hpre', hk1, htr1⟩ := hpre
        subst hpre'; subst hk1; subst htr1
        rw [hr2] at h2
        have hrec := ih kk rest2 kx trx h2 hx
        simp only [List.cons_append, Job.is_done_go]
        rw [h1]
        simp [hrec]

theorem BatchQuery.fetch_chunks_ok (srv : Server) (endpoint : String)
    (ids : List String)
    (h : ∀ rid ∈ ids,
      (srv.chunkResp (endpoint ++ "/result/" ++ rid)).status_code < 400) :
    BatchQuery.fetch_chunks srv endpoint ids =
      (.ok ((ids.map
          (fun rid => (srv.chunkResp (endpoint ++ "/result/" ++ rid)).json)).flatten),
       ids.map (fun rid => .get (endpoint ++ "/result/" ++ rid))) := by
  induction ids with
  | nil => rfl
  | cons rid rest ih =>
    simp only [BatchQuery.fetch_chunks]
    rw [check_status_ok _ (h rid (by simp))]
    rw [ih (fun r hr => h r (by simp [hr]))]
    simp

theorem BatchQuery.results_cached_done (srv : Server) (b : BatchState)
    (k : Nat) (st : StatusMap) (hst : b._status = some st)
    (hdone : isDoneOfStatus st = .ok true)
    (hids : (srv.resultIdsResp (b.endpoint ++ "/result")).status_code < 400)
    (hchunks : ∀ rid ∈ (srv.resultIdsResp (b.endpoint ++ "/result")).json,
      (srv.chunkResp (b.endpoint ++ "/result/" ++ rid)).status_code < 400) :
    BatchQuery.results srv b k =
      (.ok (((srv.resultIdsResp (b.endpoint ++ "/result")).json.map
          (fun rid => (srv.chunkResp (b.endpoint ++ "/result/" ++ rid)).json)).flatten),
       b, k,
       .get (b.endpoint ++ "/result") ::
         (srv.resultIdsResp (b.endpoint ++ "/result")).json.map
           (fun rid => .get (b.endpoint ++ "/result/" ++ rid))) := by
  unfold BatchQuery.results
  rw [Batch.is_done_cached srv b k st hst, hdone]
  simp [check_status_ok _ hids,
    BatchQuery.fetch_chunks_ok srv b.endpoint _ hchunks]

theorem Batch.results_base_cached_done (srv : Server) (b : BatchState)
    (k : Nat) (st : StatusMap) (hst : b._status = some st)
    (hdone : isDoneOfStatus st = .ok true)
    (hok : (srv.resultResp (b.endpoint ++ "/result")).status_code < 400) :
    Batch.results_base srv b k =
      (.ok (srv.resultResp (b.endpoint ++ "/result")).json, b, k,
       [.get (b.endpoint ++ "/result")]) := by
  unfold Batch.results_base Batch.fetch_result
  rw [Batch.is_done_cached srv b k st hst, hdone]
  simp [check_status_ok _ hok]

theorem Batch.results_dispatch_done (srv : Server) (b : BatchState) (k : Nat)
    (st : StatusMap) (hst : b._status = some st)
    (hdone : isDoneOfStatus st = .ok true) (hok : resultsOk srv b) :
    ∃ tr, Batch.results srv b k = (.ok (batchRows srv b), b, k, tr) := by
  unfold Batch.results batchRows
  by_cases hq : b.is_query
  · simp only [resultsOk, hq, if_true] at hok
    obtain ⟨hids, hchunks⟩ := hok
    rw [if_pos hq, if_pos hq,
      BatchQuery.results_cached_done srv b k st hst hdone hids hchunks]
    exact ⟨_, rfl⟩
  · simp only [resultsOk, hq, if_false] at hok
    rw [if_neg hq, if_neg hq,
      Batch.results_base_cached_done srv b k st hst hdone hok]
    exact ⟨_, rfl⟩

theorem Job.results_collect_ok (srv : Server) (bs : List BatchState)
    (k : Nat) (h : ∀ b ∈ bs, cachedDone b ∧ resultsOk srv b) :
    ∃ tr, Job.results_collect srv bs k =
      (.ok ((bs.map (batchRows srv)).flatten), bs, k, tr) := by
  induction bs generalizing k with
  | nil => exact ⟨[], rfl⟩
  | cons b rest ih =>
    obtain ⟨⟨st, hst, hdone⟩, hok⟩ := h b (by simp)
    obtain ⟨tr1, h1⟩ := Batch.results_dispatch_done srv b k st hst hdone hok
    obtain ⟨tr2, h2⟩ := ih k (fun b' hb' => (h b' (by simp [hb'])))
    refine ⟨tr1 ++ tr2, ?_⟩
    simp only [Job.results_collect]
    rw [h1]
    simp [h2]

theorem Job.results_all_cached_done (srv : Server) (j : JobState) (k : Nat)
    (h : ∀ b ∈ j.batches, cachedDone b ∧ resultsOk srv b) :
    ∃ tr, Job.results srv j k =
      (.ok ((j.batches.map (batchRows srv)).flatten), j, k, tr) := by
  obtain ⟨tr, hcol⟩ := Job.results_collect_ok srv j.batches k h
  refine ⟨tr, ?_⟩
  unfold Job.results Job.is_done
  rw [Job.is_done_go_all_done srv j.batches k (fun b hb => (h b hb).1)]
  simp [hcol]

theorem ceil_div_succ (n b : Nat) (hb : 0 < b) (hn : 0 < n) :
    (n + b - 1) / b = ((n - b) + b - 1) / b + 1 := by
  rcases le_or_lt n b with h | h
  · have h0 : n - b = 0 := by omega
    have h1 : n + b - 1 = (n - 1) + b := by omega
    rw [h0, h1, Nat.add_div_right _ hb,
      Nat.div_eq_of_lt (by omega : n - 1 < b),
      Nat.div_eq_of_lt (by omega : 0 + b - 1 < b)]
  · have h1 : n + b - 1 = (n - 1) + b := by omega
    have h2 : (n - b) + b - 1 = n - 1 := by omega
    rw [h1, h2, Nat.add_div_right _ hb]

theorem chunksOf_eq_range_map {α : Type} (b : Nat) (hb : 0 < b)
    (data : List α) :
    chunksOf b hb data =
      (List.range ((data.length + b - 1) / b)).map
        (fun i => (data.drop (i * b)).take b) := by
  cases data with
  | nil =>
    simp [chunksOf, Nat.div_eq_of_lt (by omega : b - 1 < b)]
  | cons x xs =>
    rw [chunksOf]
    rw [chunksOf_eq_range_map b hb ((x :: xs).drop b)]
    have hdl : ((x :: xs).drop b).length = (xs.length + 1) - b := by simp
    have hcnt : ((x :: xs).length + b - 1) / b =
        (((x :: xs).drop b).length + b - 1) / b + 1 := by
      rw [hdl, List.length_cons]
      exact ceil_div_succ (xs.length + 1) b hb (by omega)
    rw [hcnt, List.range_succ_eq_map, List.map_cons, List.map_map]
    congr 1
    · simp
    · refine List.map_congr_left ?_
      intro i _
      simp [Function.comp, List.drop_drop, Nat.succ_mul, Nat.add_comm]
termination_by data.length
decreasing_by simp; omega

theorem Job.post_chunks_spec (srv : Server) (uri : String) (ep : String)
    (ids : Nat → String)
    (hok : ∀ p, (srv.createBatchResp p).status_code < 400)
    (hid : ∀ p, (srv.createBatchResp p).json.lookup "id" = some (ids p))
    (chunks : List (List Row)) (p : Nat) :
    Job.post_chunks srv uri ep chunks p =
      (.ok ((List.range chunks.length).map
          (fun i => Batch.init ep (ids (p + i)))),
       (List.range chunks.length).map (fun i => Batch.init ep (ids (p + i))),
       chunks.map (fun c => .postRows uri c)) := by
  induction chunks generalizing p with
  | nil => rfl
  | cons c rest ih =>
    simp only [Job.post_chunks]
    rw [check_status_ok _ (hok p), hid p]
    rw [ih (p + 1)]
    have hsh : ∀ i, p + 1 + i = p + (i + 1) := fun i => by omega
    simp [List.range_succ_eq_map, List.map_map, Function.comp, hsh]

/-- Claim C1 (code bug): at the failing input — a `requests` response with
status code 500 and body "Server Error" — `check_status` raises an
attribute error (from evaluating the nonexistent `response.status`
attribute) instead of the claimed `BulkApiError` carrying the body text
and the status code 500; below 400 it returns normally as claimed. -/
theorem claim_C1_check_status_divergence :
    check_status (requestsResponse 500 "Server Error" ([] : StatusMap)) =
        .error .attributeError ∧
    check_status (requestsResponse 500 "Server Error" ([] : StatusMap)) ≠
        .error (.bulkApiError "Bulk API HTTP Error result: Server Error" 500) ∧
    check_status (requestsResponse 399 "" ([] : StatusMap)) = .ok () := by
  refine ⟨rfl, ?_, rfl⟩
  intro h
  cases h

/-- Claim C7: once a snapshot is cached, `status(reload=false)` performs
no network request (empty event trace), returns the cached snapshot, and
leaves the batch unchanged; a GET against the batch URI happens exactly
when `reload` is true or no snapshot exists, and on a successful response
its parsed body replaces the cache. -/
theorem claim_C7_status_cache (srv : Server) (b : BatchState) (k : Nat) :
    (∀ st, b._status = some st →
      Batch.status srv false b k = (.ok st, b, k, [])) ∧
    (∀ reload, reload = true ∨ b._status = none →
      (srv.statusResp k b.endpoint).status_code < 400 →
      Batch.status srv reload b k =
        (.ok (srv.statusResp k b.endpoint).json,
         { b with _status := some (srv.statusResp k b.endpoint).json },
         k + 1, [.get b.endpoint])) :=
  ⟨fun st h => Batch.status_cached srv b k st h,
   fun reload hre hok => Batch.status_fetch_ok srv reload b k hre hok⟩

/-- Witness for C7 at a concrete cached batch and a concrete reload. -/
theorem claim_C7_witness :
    Batch.status sampleServer false doneBatch 0 =
      (.ok [("state", "Completed")], doneBatch, 0, []) ∧
    Batch.status sampleServer true doneBatch 0 =
      (.ok [("state", "InProgress")],
       { doneBatch with _status := some [("state", "InProgress")] }, 1,
       [.get doneBatch.endpoint]) :=
  ⟨(claim_C7_status_cache sampleServer doneBatch 0).1
      [("state", "Completed")] rfl,
   (claim_C7_status_cache sampleServer doneBatch 0).2 true (Or.inl rfl)
      (by decide)⟩

/-- Claim C10: a snapshot lacking the state key makes `is_done` treat the
state as absent: no error is raised and the result is false (still in
progress) — both on a cached snapshot and on a fresh successful poll. -/
theorem claim_C10_missing_state_key (srv : Server) (b : BatchState)
    (k : Nat) (st : StatusMap) :
    (b._status = some st → st.lookup "state" = none →
      Batch.is_done srv false b k = (.ok false, b, k, [])) ∧
    ((srv.statusResp k b.endpoint).status_code < 400 →
     (srv.statusResp k b.endpoint).json.lookup "state" = none →
      Batch.is_done srv true b k =
        (.ok false,
         { b with _status := some (srv.statusResp k b.endpoint).json },
         k + 1, [.get b.endpoint])) := by
  constructor
  · intro hst hnone
    rw [Batch.is_done_cached srv b k st hst, isDoneOfStatus_no_state _ hnone]
  · intro hok hnone
    rw [Batch.is_done_fetch_ok srv true b k (Or.inl rfl) hok,
      isDoneOfStatus_no_state _ hnone]

/-- Witness for C10: a concrete batch whose cached snapshot has no state
key is reported as not done, without an error. -/
theorem claim_C10_witness :
    Batch.is_done sampleServer false noStateBatch 0 =
      (.ok false, noStateBatch, 0, []) :=
  (claim_C10_missing_state_key sampleServer noStateBatch 0
    [("foo", "bar")]).1 rfl rfl

/-- Claim C3: a status snapshot whose state is in the error-state set
makes `is_done` raise `BulkBatchFailed` carrying that snapshot's job id,
batch id and state message — never a plain false.  On a cached error
snapshot this happens identically on every call (any server, any poll
counter) and the cache is left in place, so the failure is idempotent;
the same happens on a freshly polled error snapshot.  Otherwise the
result is ok, true exactly when the state equals the completed state. -/
theorem claim_C3_is_done_error_raises (srv : Server) (b : BatchState)
    (k : Nat) (st : StatusMap) (s jid bid m : String) :
    (b._status = some st → st.lookup "state" = some s →
     s ∈ ERROR_STATES → st.lookup "jobId" = some jid →
     st.lookup "id" = some bid → st.lookup "stateMessage" = some m →
      Batch.is_done srv false b k =
        (.error (.bulkBatchFailed jid bid m), b, k, [])) ∧
    ((srv.statusResp k b.endpoint).status_code < 400 →
     (srv.statusResp k b.endpoint).json.lookup "state" = some s →
     s ∈ ERROR_STATES →
     (srv.statusResp k b.endpoint).json.lookup "jobId" = some jid →
     (srv.statusResp k b.endpoint).json.lookup "id" = some bid →
     (srv.statusResp k b.endpoint).json.lookup "stateMessage" = some m →
      Batch.is_done srv true b k =
        (.error (.bulkBatchFailed jid bid m),
         { b with _status := some (srv.statusResp k b.endpoint).json },
         k + 1, [.get b.endpoint])) ∧
    (b._status = some st → st.lookup "state" = some s →
     s ∉ ERROR_STATES →
      Batch.is_done srv false b k = (.ok (s == COMPLETED), b, k, []) ∧
      ((Batch.is_done srv false b k).1 = .ok true ↔ s = COMPLETED)) := by
  refine ⟨?_, ?_, ?_⟩
  · intro hst hs herr hj hb2 hm
    rw [Batch.is_done_cached srv b k st hst,
      isDoneOfStatus_error st s hs herr jid bid m hj hb2 hm]
  · intro hok hs herr hj hb2 hm
    rw [Batch.is_done_fetch_ok srv true b k (Or.inl rfl) hok,
      isDoneOfStatus_error _ s hs herr jid bid m hj hb2 hm]
  · intro hst hs herr
    have heq : Batch.is_done srv false b k = (.ok (s == COMPLETED), b, k, []) := by
      rw [Batch.is_done_cached srv b k st hst,
        isDoneOfStatus_not_error st s hs herr]
    refine ⟨heq, ?_⟩
    rw [heq]
    simp [beq_iff_eq]

/-- Witness for C3: the spec's scenario snapshot (state Failed, job J1,
batch B1, message "bad row") makes `is_done` raise the batch-failed
error with exactly those fields, and a completed snapshot yields true. -/
theorem claim_C3_witness :
    Batch.is_done sampleServer false failedBatch 0 =
      (.error (.bulkBatchFailed "J1" "B1" "bad row"), failedBatch, 0, []) ∧
    Batch.is_done sampleServer false doneBatch 0 =
      (.ok ("Completed" == COMPLETED), doneBatch, 0, []) :=
  ⟨(claim_C3_is_done_error_raises sampleServer failedBatch 0
      [("state", "Failed"), ("jobId", "J1"), ("id", "B1"),
       ("stateMessage", "bad row")] "Failed" "J1" "B1" "bad row").1
    rfl rfl (by decide) rfl rfl rfl,
   ((claim_C3_is_done_error_raises sampleServer doneBatch 0
      [("state", "Completed")] "Completed" "J1" "B1" "bad row").2.2
    rfl rfl (by decide)).1⟩

theorem Batch.wait_go_done_step (srv : Server) (timeout si : Nat)
    (hsi : 0 < si) (b : BatchState) (waited k : Nat)
    (hok : (srv.statusResp k b.endpoint).status_code < 400)
    (hd : isDoneOfStatus (srv.statusResp k b.endpoint).json = .ok true) :
    Batch.wait_go srv timeout si hsi b waited k =
      (.ok (), { b with _status := some (srv.statusResp k b.endpoint).json },
       k + 1, [.get b.endpoint]) := by
  rw [Batch.wait_go]
  rw [Batch.is_done_fetch_ok srv true b k (Or.inl rfl) hok, hd]
  simp

/-- Claim C4: `wait` polls with `is_done(reload=true)`, sleeping the poll
interval between polls, and stops as soon as a poll reports done or once
the accumulated sleep reaches the timeout, returning normally in either
case.  In particular: a done poll ends the loop at once with no sleep;
against a never-completing batch the loop always returns ok (no raise on
timeout); and `wait(timeout=30, sleep_interval=10)` against a
never-completing batch performs exactly the initial poll plus 3 more
polls, at accumulated sleeps 10, 20 and 30, then returns. -/
theorem claim_C4_wait_timeout (srv : Server) (b : BatchState) :
    (∀ timeout si (hsi : 0 < si) (waited k : Nat),
      (srv.statusResp k b.endpoint).status_code < 400 →
      isDoneOfStatus (srv.statusResp k b.endpoint).json = .ok true →
      Batch.wait_go srv timeout si hsi b waited k =
        (.ok (),
         { b with _status := some (srv.statusResp k b.endpoint).json },
         k + 1, [.get b.endpoint])) ∧
    (neverDone srv b.endpoint →
      (∀ timeout si (hsi : 0 < si) (waited k : Nat),
        (Batch.wait_go srv timeout si hsi b waited k).1 = .ok ()) ∧
      (∀ k, Batch.wait_go srv 30 10 (by omega) b 0 k =
        (.ok (),
         { b with _status := some (srv.statusResp (k + 3) b.endpoint).json },
         k + 4,
         [.get b.endpoint, .sleep 10, .get b.endpoint, .sleep 10,
          .get b.endpoint, .sleep 10, .get b.endpoint]))) :=
  ⟨fun timeout si hsi waited k hok hd =>
    Batch.wait_go_done_step srv timeout si hsi b waited k hok hd,
   fun h =>
    ⟨fun timeout si hsi waited k =>
      Batch.wait_go_never_done srv b.endpoint timeout si hsi h waited k b rfl,
     fun k => Batch.wait_30_10_scenario srv b.endpoint h b rfl k⟩⟩

/-- Witness for C4: against the always-in-progress sample server,
`wait(30, 10)` from a fresh batch does 4 polls and 3 sleeps and returns
normally. -/
theorem claim_C4_witness :
    Batch.wait_go sampleServer 30 10 (by omega) freshBatch 0 0 =
      (.ok (),
       { freshBatch with _status := some [("state", "InProgress")] }, 4,
       [.get freshBatch.endpoint, .sleep 10, .get freshBatch.endpoint,
        .sleep 10, .get freshBatch.endpoint, .sleep 10,
        .get freshBatch.endpoint]) :=
  ((claim_C4_wait_timeout sampleServer freshBatch).2
    (fun _ => ⟨by simp [sampleServer, requestsResponse], rfl⟩)).2 0

/-- Claim C6: `Job.is_done` is true exactly when every owned batch
reports done (stated over batches with cached snapshots, where a batch's
report is a pure function of its cache); and the scan short-circuits: if
the batches split as a done prefix, a first not-done batch `x` and an
arbitrary suffix, the call returns false with the suffix returned
untouched (no side effects on later caches) and the event trace is
exactly the prefix's events followed by `x`'s events — nothing is
evaluated after the first not-done batch. -/
theorem claim_C6_job_is_done (srv : Server) :
    (∀ (j : JobState) (k : Nat), (∀ b ∈ j.batches, b._status.isSome) →
      ((Job.is_done srv j k).1 = .ok true ↔ ∀ b ∈ j.batches, cachedDone b)) ∧
    (∀ (j : JobState) (pre : List BatchState) (x : BatchState)
        (post pre' : List BatchState) (x' : BatchState) (k k1 k2 : Nat)
        (tr1 tr2 : List Event),
      j.batches = pre ++ x :: post →
      Job.is_done_go srv pre k = (.ok true, pre', k1, tr1) →
      Batch.is_done srv false x k1 = (.ok false, x', k2, tr2) →
      Job.is_done srv j k =
        (.ok false, { j with batches := pre' ++ x' :: post }, k2,
         tr1 ++ tr2)) := by
  constructor
  · intro j k hc
    have hiff := Job.is_done_go_true_iff srv j.batches k hc
    unfold Job.is_done
    rcases h : Job.is_done_go srv j.batches k with ⟨r, bs, k2, tr⟩
    rw [h] at hiff
    simpa using hiff
  · intro j pre x post pre' x' k k1 k2 tr1 tr2 hsplit hpre hx
    unfold Job.is_done
    rw [hsplit,
      Job.is_done_go_short_circuit srv pre x post k pre' k1 tr1 x' k2 tr2
        hpre hx]

/-- Witness for C6 on a concrete job: the scan stops at the cached
in-progress batch and the never-polled batch after it stays untouched,
with no network events at all. -/
theorem claim_C6_witness :
    Job.is_done sampleServer mixedJob 0 =
      (.ok false,
       { mixedJob with batches := [doneBatch, progressBatch, freshBatch] },
       0, []) := by
  have h := (claim_C6_job_is_done sampleServer).2 mixedJob [doneBatch]
    progressBatch [freshBatch] [doneBatch] progressBatch 0 0 0 [] []
    rfl rfl rfl
  simpa using h

/-- Claim C5: result aggregation preserves order.  For a job whose owned
batches are all done (cached) and whose result endpoints answer
successfully, `Job.results` yields exactly the concatenation of each
batch's own rows in batch insertion order; and `BatchQuery.results`
yields, for each result-chunk id in the order the server returned the id
list, that chunk's records in the order the server returned them — a
two-level flatten. -/
theorem claim_C5_results_order (srv : Server) :
    (∀ (j : JobState) (k : Nat),
      (∀ b ∈ j.batches, cachedDone b ∧ resultsOk srv b) →
      ∃ tr, Job.results srv j k =
        (.ok ((j.batches.map (batchRows srv)).flatten), j, k, tr)) ∧
    (∀ (b : BatchState) (k : Nat) (st : StatusMap),
      b._status = some st → isDoneOfStatus st = .ok true →
      (srv.resultIdsResp (b.endpoint ++ "/result")).status_code < 400 →
      (∀ rid ∈ (srv.resultIdsResp (b.endpoint ++ "/result")).json,
        (srv.chunkResp (b.endpoint ++ "/result/" ++ rid)).status_code < 400) →
      (BatchQuery.results srv b k).1 =
        .ok (((srv.resultIdsResp (b.endpoint ++ "/result")).json.map
          (fun rid =>
            (srv.chunkResp (b.endpoint ++ "/result/" ++ rid)).json)).flatten)) :=
  ⟨fun j k h => Job.results_all_cached_done srv j k h,
   fun b k st hst hdone hids hchunks => by
    rw [BatchQuery.results_cached_done srv b k st hst hdone hids hchunks]⟩

/-- Witness for C5 on a concrete two-batch job (one plain batch, one
query batch) against the sample server. -/
theorem claim_C5_witness :
    ∃ tr, Job.results sampleServer doneJob 0 =
      (.ok ((doneJob.batches.map (batchRows sampleServer)).flatten),
       doneJob, 0, tr) :=
  (claim_C5_results_order sampleServer).1 doneJob 0 (by
    intro b hb
    simp only [doneJob, List.mem_cons, List.not_mem_nil, or_false] at hb
    rcases hb with rfl | rfl
    · exact ⟨⟨[("state", "Completed")], rfl, rfl⟩,
        by simp [resultsOk, doneBatch, sampleServer, requestsResponse]⟩
    · exact ⟨⟨[("state", "Completed")], rfl, rfl⟩,
        by simp [resultsOk, doneQueryBatch, sampleServer, requestsResponse]⟩)

/-- Claim C2: for `batchSize` b > 0 and successful batch-creation
responses carrying ids, `Job.post` issues exactly `ceil(n/b)` creation
POSTs (one per chunk, in order), with chunk i carrying exactly the rows
`data[i*b : i*b+b]`; each created batch is appended to the job's
cumulative batch list in chunk order, and the call returns exactly the
batches it created, in that order, while earlier batches stay in the
cumulative list. -/
theorem claim_C2_job_post_chunking (srv : Server) (j : JobState)
    (data : List Row) (b : Nat) (hb : 0 < b) (ids : Nat → String)
    (hok : ∀ p, (srv.createBatchResp p).status_code < 400)
    (hid : ∀ p, (srv.createBatchResp p).json.lookup "id" = some (ids p)) :
    Job.post srv j data b =
      (.ok ((List.range ((data.length + b - 1) / b)).map
          (fun i => Batch.init j.endpoint (ids i))),
       { j with batches := (j.batches ++
           (List.range ((data.length + b - 1) / b)).map
             (fun i => Batch.init j.endpoint (ids i))) },
       (List.range ((data.length + b - 1) / b)).map
         (fun i => Event.postRows (j.endpoint ++ "/batch")
           ((data.drop (i * b)).take b))) := by
  unfold Job.post
  rw [dif_neg (by omega : ¬ b = 0)]
  simp only [Job.post_chunks_spec srv (j.endpoint ++ "/batch") j.endpoint ids
    hok hid, chunksOf_eq_range_map]
  simp [List.map_map, Function.comp]

/-- Witness for C2: five rows with batch size 2 against the sample
server give three creation POSTs carrying the three chunks. -/
theorem claim_C2_witness :
    Job.post sampleServer sampleJob
        [[("a", "1")], [("a", "2")], [("a", "3")], [("a", "4")], [("a", "5")]]
        2 =
      (.ok ((List.range (([[("a", "1")], [("a", "2")], [("a", "3")],
            [("a", "4")], [("a", "5")]].length + 2 - 1) / 2)).map
          (fun i => Batch.init sampleJob.endpoint ((fun _ => "B0") i))),
       { sampleJob with batches := (sampleJob.batches ++
           (List.range (([[("a", "1")], [("a", "2")], [("a", "3")],
              [("a", "4")], [("a", "5")]].length + 2 - 1) / 2)).map
             (fun i => Batch.init sampleJob.endpoint ((fun _ => "B0") i))) },
       (List.range (([[("a", "1")], [("a", "2")], [("a", "3")],
            [("a", "4")], [("a", "5")]].length + 2 - 1) / 2)).map
         (fun i => Event.postRows (sampleJob.endpoint ++ "/batch")
           (([[("a", "1")], [("a", "2")], [("a", "3")], [("a", "4")],
              [("a", "5")]].drop (i * 2)).take 2))) :=
  claim_C2_job_post_chunking sampleServer sampleJob
    [[("a", "1")], [("a", "2")], [("a", "3")], [("a", "4")], [("a", "5")]]
    2 (by omega) (fun _ => "B0")
    (fun p => by simp [sampleServer, requestsResponse])
    (fun p => rfl)

/-- Claim C8: used as a scoped resource, entering yields the job itself
unchanged; on exit — whether the body returned or raised — exactly one
close request (a state-change POST with body state Closed) is appended
to the body's events; a body exception is not suppressed and propagates
after that close request. -/
theorem claim_C8_scoped_close {α : Type} (srv : Server) (j : JobState)
    (body : JobState → Except PyError α × List Event)
    (hok : (srv.stateChangeResp j.endpoint
      [("state", "Closed")]).status_code < 400) :
    Job.enter_ j = j ∧
    (∀ a tr, body j = (.ok a, tr) →
      withJob srv j body =
        (.ok a, tr ++ [.postState j.endpoint [("state", "Closed")]])) ∧
    (∀ e tr, body j = (.error e, tr) →
      withJob srv j body =
        (.error e, tr ++ [.postState j.endpoint [("state", "Closed")]])) := by
  have hclose : Job.exit_ srv j =
      (.ok (), [.postState j.endpoint [("state", "Closed")]]) := by
    unfold Job.exit_ Job.close
    simp [check_status_ok _ hok]
  refine ⟨rfl, ?_, ?_⟩
  · intro a tr hbody
    unfold withJob Job.enter_
    simp [hbody, hclose]
  · intro e tr hbody
    unfold withJob Job.enter_
    simp [hbody, hclose]

/-- Witness for C8: a normally returning body and a raising body both
produce exactly one close request, and the raising body's error
propagates. -/
theorem claim_C8_witness :
    withJob sampleServer sampleJob
        (fun _ => ((.ok 0 : Except PyError Nat), [])) =
      (.ok 0, [.postState sampleJob.endpoint [("state", "Closed")]]) ∧
    withJob sampleServer sampleJob
        (fun _ => ((.error (.runtimeError "boom") : Except PyError Nat),
          [])) =
      (.error (.runtimeError "boom"),
       [.postState sampleJob.endpoint [("state", "Closed")]]) := by
  constructor
  · have h := (claim_C8_scoped_close sampleServer sampleJob
      (fun _ => ((.ok 0 : Except PyError Nat), []))
      (by simp [sampleServer, requestsResponse])).2.1 0 [] rfl
    simpa using h
  · have h := (claim_C8_scoped_close sampleServer sampleJob
      (fun _ => ((.error (.runtimeError "boom") : Except PyError Nat), []))
      (by simp [sampleServer, requestsResponse])).2.2
      (.runtimeError "boom") [] rfl
    simpa using h

/-- Claim C9: constructing the client always performs the login exchange
with the supplied username/password, even when a session id is supplied:
the supplied session id is discarded and the session header always
carries the session id returned by login.  In particular a construction
with only a (nonempty) session id passes the precondition check and then
attempts login with username and password absent. -/
theorem claim_C9_init_always_login
    (login : Option String → Option String → String → String →
      String × String) (host API_version : String) :
    (∀ sessionId username password,
      (truthy sessionId || truthy username) = true →
      SalesforceBulk.init_ sessionId host username password API_version
          login =
        (.ok { endpoint := "https://" ++
                 (login username password host API_version).1 ++
                 "/services/async/" ++ API_version,
               sessionHeader := (login username password host API_version).2,
               contentTypeHeader := "application/json" },
         [.loginCall username password])) ∧
    (∀ s : String, s ≠ "" →
      SalesforceBulk.init_ (some s) host none none API_version login =
        (.ok { endpoint := "https://" ++ (login none none host API_version).1 ++
                 "/services/async/" ++ API_version,
               sessionHeader := (login none none host API_version).2,
               contentTypeHeader := "application/json" },
         [.loginCall none none])) := by
  have hmain : ∀ sessionId username password,
      (truthy sessionId || truthy username) = true →
      SalesforceBulk.init_ sessionId host username password API_version
          login =
        (.ok { endpoint := "https://" ++
                 (login username password host API_version).1 ++
                 "/services/async/" ++ API_version,
               sessionHeader := (login username password host API_version).2,
               contentTypeHeader := "application/json" },
         [.loginCall username password]) := by
    intro sessionId username password h
    have hcond : (!truthy sessionId && !truthy username) = false := by
      cases hs : truthy sessionId <;> cases hu : truthy username <;>
        simp_all
    unfold SalesforceBulk.init_
    rw [hcond]
    simp
  refine ⟨hmain, ?_⟩
  intro s hs
  exact hmain (some s) none none (by simp [truthy, hs])

/-- Witness for C9: a client constructed with only a session id still
calls login (with absent credentials) and installs the session id the
login oracle returned, not the supplied one. -/
theorem claim_C9_witness :
    SalesforceBulk.init_ (some "OLDSESSION") "login.salesforce.com" none
        none "36.0" (fun _ _ _ _ => ("inst.example.com", "SID123")) =
      (.ok { endpoint := "https://" ++ "inst.example.com" ++
               "/services/async/" ++ "36.0",
             sessionHeader := "SID123",
             contentTypeHeader := "application/json" },
       [.loginCall none none]) :=
  (claim_C9_init_always_login (fun _ _ _ _ => ("inst.example.com", "SID123"))
    "login.salesforce.com" "36.0").2 "OLDSESSION" (by simp)
